import Mathlib

/-!
Shallow embedding of the gesture-interpretation state machine and the
particle-group animation ticks of `src/src/App.tsx` (component
`GestureController`, function `predictWebcam`, lines 585-713, and the
`useFrame` callbacks of `PhotoOrnaments`, `ChristmasElements`, `FairyLights`,
lines 169-196, 267-278, 309-322).

Numbers: the source manipulates JS numbers; they are modelled as exact
rationals.  The source only ever compares a square root of a sum of squares
(`Math.sqrt(s)`, possibly divided by a positive quantity `m`) against a
positive threshold `t`; every such comparison is embedded as the equivalent
comparison of squares (`sqrt s / m < t  ↔  s < t^2 * m^2`, valid because both
sides are nonnegative), which is exact and keeps all definitions computable.
In particular `max(0.001, diag)^2 = max(0.000001, diagSq)`.

Exceptions: JS property accesses on `undefined` (an out-of-range array index
followed by `.x`) throw a `TypeError`.  Inside the OK-sign block (source lines
621-708) such a throw is caught by the surrounding `try/catch` at the frame
boundary; the analysis below models it with `Except`/`Option`, and the caught
case returns the state unchanged because in the source every possible throw
site precedes the first state mutation.  The wrist read on line 615
(`results.landmarks[0][0].x`) is *outside* that `try`, so a first hand with an
empty landmark list escapes the per-frame handler; this is modelled by the
`crashed` flag (the `requestAnimationFrame` rescheduling on line 711 is then
skipped, which stops the recognition loop).
-/

namespace App

/-- A 2D landmark point.  The recognizer supplies `{x, y, z}` but the source
reads only `.x` and `.y`. -/
structure Pt where
  x : ℚ
  y : ℚ
deriving DecidableEq, Repr

/-- One detected hand: its landmark list together with its top gesture
category.  The recognizer returns one category list per detected hand, highest
confidence first, and the source reads only `results.gestures[0][0]`; hence
`results.gestures.length > 0` and `results.landmarks.length > 0` are both
equivalent to "at least one hand was detected". -/
structure Hand where
  landmarks : List Pt
  gestureName : String
  gestureScore : ℚ
deriving DecidableEq, Repr

/-- One recognizer result per processed camera frame (a frame with
`videoWidth > 0`), together with the two ambient values the handler samples:
`Date.now()` and the `Math.random()` draw used for the pick index. -/
structure Frame where
  hands : List Hand
  now : ℚ
  rand : ℚ
deriving DecidableEq, Repr

/-- The two scene phases. -/
inductive Phase
  | CHAOS
  | FORMED
deriving DecidableEq, Repr

/-- Discrete events emitted by the interpreter: `onGesture` (scene change),
`onMove` (rotation speed), `onPick`, `onUnpick`.  `onStatus`/`onDebug` are UI
status text, not application events, and are not modelled. -/
inductive Event
  | setScene (p : Phase)
  | setRotation (s : ℚ)
  | pick (i : ℕ)
  | unpick
deriving DecidableEq, Repr

/-- Configuration read by the handler from the enclosing component:
`sceneState`, `permissiveOk` and `photosCount` props of `GestureController`.
(`debugMode` only gates status text and canvas drawing.) -/
structure Config where
  sceneState : Phase
  permissiveOk : Bool
  photosCount : ℕ
deriving DecidableEq, Repr

/-- The captured mutable interpreter state (source lines 585-591):
`lastPickTime`, `okActive`, `okFrameCount`, `lastPickHandPos`. -/
structure GState where
  lastPickTime : ℚ
  okActive : Bool
  okFrameCount : ℕ
  lastPickHandPos : Option (ℚ × ℚ)
deriving DecidableEq, Repr

/-- Source constant `PICK_COOLDOWN = 800` (milliseconds). -/
def PICK_COOLDOWN : ℚ := 800

/-- Source constant `OK_HOLD_FRAMES = 2`. -/
def OK_HOLD_FRAMES : ℕ := 2

/-- Source constant `MOVE_UNPICK_THRESHOLD = 0.08`. -/
def MOVE_UNPICK_THRESHOLD : ℚ := 8 / 100

/-- Initial values of the captured state. -/
def initialState : GState :=
  { lastPickTime := 0, okActive := false, okFrameCount := 0, lastPickHandPos := none }

/-- Squared euclidean distance; the source computes `Math.sqrt` of this. -/
def distSq (p q : Pt) : ℚ :=
  (p.x - q.x) ^ 2 + (p.y - q.y) ^ 2

/-- Hand bounding box accumulator. -/
structure BBox where
  minX : ℚ
  maxX : ℚ
  minY : ℚ
  maxY : ℚ
deriving DecidableEq, Repr

/-- Source lines 628-629: `let minX = 1, maxX = 0, minY = 1, maxY = 0;` then
one pass over all landmarks updating the four extrema. -/
def bboxOf (lm : List Pt) : BBox :=
  lm.foldl (fun b p => ⟨min b.minX p.x, max b.maxX p.x, min b.minY p.y, max b.maxY p.y⟩)
    ⟨1, 0, 1, 0⟩

/-- Source line 630: `const bboxW = Math.max(0.01, maxX - minX)`. -/
def bboxW (b : BBox) : ℚ := max (1 / 100) (b.maxX - b.minX)

/-- Square of `diag = Math.sqrt((maxX-minX)^2 + (maxY-minY)^2)` (line 631). -/
def diagSq (b : BBox) : ℚ := (b.maxX - b.minX) ^ 2 + (b.maxY - b.minY) ^ 2

/-- Source line 640:
`normThreshold = (sceneState === 'CHAOS' ? 0.22 : 0.12) * (permissiveOk ? 1.25 : 1)`. -/
def normThreshold (phase : Phase) (permissive : Bool) : ℚ :=
  (if phase = Phase.CHAOS then 22 / 100 else 12 / 100) * (if permissive then 125 / 100 else 1)

/-- Source line 641:
`otherExtendThreshold = (sceneState === 'CHAOS' ? 0.38 : 0.48) * (permissiveOk ? 0.85 : 1)`. -/
def otherThreshold (phase : Phase) (permissive : Bool) : ℚ :=
  (if phase = Phase.CHAOS then 38 / 100 else 48 / 100) * (if permissive then 85 / 100 else 1)

/-- The loop over the middle/ring/pinky tips (source lines 646-652).
`dSqFloor` is `max(0.001, diag)^2 = max(0.000001, diagSq)`; the source test
`d / Math.max(0.001, diag) < otherExtendThreshold` is embedded on squares as
`d^2 < oet^2 * dSqFloor`.  `.error` models the `TypeError` thrown when
`lm[ti]` is `undefined` (caught at the frame boundary); the source breaks with
`otherExtended = false` as soon as one tip fails the test. -/
def otherLoop (lm : List Pt) (wrist : Pt) (oet dSqFloor : ℚ) : List ℕ → Except Unit Bool
  | [] => Except.ok true
  | ti :: rest =>
    match lm[ti]? with
    | none => Except.error ()
    | some tp =>
      if distSq tp wrist < oet ^ 2 * dSqFloor then Except.ok false
      else otherLoop lm wrist oet dSqFloor rest

/-- Debounce update (source lines 654-659):
`okFrameCount = okNow ? Math.min(okFrameCount + 1, OK_HOLD_FRAMES) : 0`. -/
def debouncedCount (okNow : Bool) (cnt : ℕ) : ℕ :=
  if okNow then min (cnt + 1) OK_HOLD_FRAMES else 0

/-- Pick rising edge (source lines 662-672).  `cnt` is the already-updated
`okFrameCount`.  `onPick` is always a function in the app, and the pick index
is `Math.floor(Math.random() * photosCount)`. -/
def risingEdge (cfg : Config) (st : GState) (cnt : ℕ) (wrist : Pt) (now rand : ℚ) :
    GState × List Event :=
  if OK_HOLD_FRAMES ≤ cnt ∧ st.okActive = false ∧ 0 < cfg.photosCount ∧
      PICK_COOLDOWN < now - st.lastPickTime then
    ({ lastPickTime := now, okActive := true, okFrameCount := cnt,
       lastPickHandPos := some (wrist.x, wrist.y) },
     [Event.pick (Int.toNat ⌊rand * (cfg.photosCount : ℚ)⌋)])
  else
    ({ st with okFrameCount := cnt }, [])

/-- Falling edge, sign released (source lines 675-680):
`if (okActive && (norm >= normThreshold || okFrameCount === 0))`.
`geomClose` is the embedded `norm < normThreshold`. -/
def fallingEdgeReleased (geomClose : Bool) (st : GState) : GState × List Event :=
  if st.okActive = true ∧ (geomClose = false ∨ st.okFrameCount = 0) then
    ({ st with okActive := false, lastPickHandPos := none }, [Event.unpick])
  else
    (st, [])

/-- Falling edge, hand moved (source lines 683-693).  The source test
`moveDist = sqrt(dxh^2 + dyh^2) / max(0.001, diag) > 0.08` is embedded on
squares. -/
def fallingEdgeMoved (wrist : Pt) (dgSq : ℚ) (st : GState) : GState × List Event :=
  match st.okActive, st.lastPickHandPos with
  | true, some a =>
    if MOVE_UNPICK_THRESHOLD ^ 2 * max (1 / 1000000) dgSq <
        (wrist.x - a.1) ^ 2 + (wrist.y - a.2) ^ 2 then
      ({ st with okActive := false, lastPickHandPos := none }, [Event.unpick])
    else
      (st, [])
  | _, _ => (st, [])

/-- Debounce, rising edge and both falling edges (source lines 654-693), once
the geometric tests have been decided: `geomClose` is `norm < normThreshold`,
`otherExtended` the loop's verdict, `wrist` is `lm[0]`, `dgSq` the squared
bounding-box diagonal. -/
def okCore (cfg : Config) (st : GState) (geomClose otherExtended : Bool) (wrist : Pt)
    (dgSq : ℚ) (now rand : ℚ) : GState × List Event :=
  let cnt := debouncedCount (geomClose && otherExtended) st.okFrameCount
  let r1 := risingEdge cfg st cnt wrist now rand
  let r2 := fallingEdgeReleased geomClose r1.1
  let r3 := fallingEdgeMoved wrist dgSq r2.1
  (r3.1, r1.2 ++ r2.2 ++ r3.2)

/-- The OK-sign block of `predictWebcam` (source lines 620-709), for the first
hand's landmark list.  The whole block is wrapped in `try { ... } catch {}`;
every access that can throw (`lm[4]`, `lm[8]`, `lm[0]`, and the fingertip
reads inside the loop) happens before the first state mutation, so the caught
case returns `(st, [])`.  The `geomClose` argument embeds
`norm < normThreshold`, i.e. `dist / bboxW < normThreshold`, as
`distSq < (normThreshold * bboxW)^2`. -/
def okBlock (cfg : Config) (st : GState) (lm : List Pt) (now rand : ℚ) :
    GState × List Event :=
  match lm[4]?, lm[8]?, lm[0]? with
  | some pThumb, some pIndex, some wrist =>
    let dSq := distSq pThumb pIndex
    let b := bboxOf lm
    let bw := bboxW b
    let dgSq := diagSq b
    let nt := normThreshold cfg.sceneState cfg.permissiveOk
    let oet := otherThreshold cfg.sceneState cfg.permissiveOk
    match otherLoop lm wrist oet (max (1 / 1000000) dgSq) [12, 16, 20] with
    | Except.error _ => (st, [])
    | Except.ok otherExtended =>
      okCore cfg st (if dSq < (nt * bw) ^ 2 then true else false) otherExtended wrist dgSq now rand
  | _, _, _ => (st, [])

/-- Coarse gesture classification (source lines 608-613): top gesture of the
first hand, confidence gate `score > 0.4`, label mapping
`Open_Palm → CHAOS`, `Closed_Fist → FORMED`. -/
def gestureEvents (h : Hand) : List Event :=
  if 2 / 5 < h.gestureScore then
    (if h.gestureName = "Open_Palm" then [Event.setScene Phase.CHAOS] else []) ++
      (if h.gestureName = "Closed_Fist" then [Event.setScene Phase.FORMED] else [])
  else
    []

/-- Result of one processed frame.  `crashed = true` means an exception
escaped the per-frame handler (only possible at the wrist read on line 615),
after which the recognition loop is no longer rescheduled. -/
structure FrameResult where
  state : GState
  events : List Event
  crashed : Bool
deriving DecidableEq, Repr

/-- One invocation of the body of `predictWebcam` on a ready camera frame
(source lines 596-711), as a pure transition on the captured state.  Events
are listed in emission order: `onGesture`, `onMove`, then the OK-sign block's
`onPick`/`onUnpick`. -/
def processFrame (cfg : Config) (st : GState) (f : Frame) : FrameResult :=
  match f.hands with
  | [] =>
    -- `results.gestures.length === 0`: `onMove(0)`; the OK block is skipped
    -- because `results.landmarks.length === 0`.
    ⟨st, [Event.setRotation 0], false⟩
  | h :: _ =>
    let ge := gestureEvents h
    match h.landmarks[0]? with
    | none =>
      -- line 615 reads `results.landmarks[0][0].x` outside any try/catch.
      ⟨st, ge, true⟩
    | some w0 =>
      let speed := (1 / 2 - w0.x) * (15 / 100)
      let rot := Event.setRotation (if 1 / 100 < |speed| then speed else 0)
      let r := okBlock cfg st h.landmarks f.now f.rand
      ⟨r.1, ge ++ [rot] ++ r.2, false⟩

/-- Sequential processing of frames.  A crash stops the loop (line 711 is not
reached), so later frames are dropped. -/
def runFrames (cfg : Config) : GState → List Frame → GState × List Event
  | st, [] => (st, [])
  | st, f :: fs =>
    let r := processFrame cfg st f
    if r.crashed then (r.state, r.events)
    else ((runFrames cfg r.state fs).1, r.events ++ (runFrames cfg r.state fs).2)

/-- Event classifiers. -/
def isPick : Event → Bool
  | Event.pick _ => true
  | _ => false

def isUnpick : Event → Bool
  | Event.unpick => true
  | _ => false

def isSetRotation : Event → Bool
  | Event.setRotation _ => true
  | _ => false

def hasPick (evs : List Event) : Bool := evs.any isPick

def hasUnpick (evs : List Event) : Bool := evs.any isUnpick

/-! ### Particle groups -/

/-- A 3D vector with exact rational components. -/
structure Vec3 where
  x : ℚ
  y : ℚ
  z : ℚ
deriving DecidableEq, Repr

/-- Model of `THREE.Vector3.lerp(v, alpha)`: `this += (v - this) * alpha`, with no
clamping of `alpha`. -/
def Vec3.lerp (a b : Vec3) (t : ℚ) : Vec3 :=
  ⟨a.x + (b.x - a.x) * t, a.y + (b.y - a.y) * t, a.z + (b.z - a.z) * t⟩

/-- Per-object data of `PhotoOrnaments` (source lines 135-167); only the
fields read by the position update of its `useFrame` tick are modelled. -/
structure OrnData where
  chaosPos : Vec3
  targetPos : Vec3
  currentPos : Vec3
  weight : ℚ
deriving DecidableEq, Repr

/-- Per-object data of `ChristmasElements` (source lines 245-264). -/
structure ElemData where
  chaosPos : Vec3
  targetPos : Vec3
  currentPos : Vec3
  rotationSpeed : Vec3
deriving DecidableEq, Repr

/-- Per-object data of `FairyLights` (source lines 297-307); `speed` and
`timeOffset` drive the emissive twinkle (`Math.sin`, transcendental), which no
claim is about and which does not touch positions. -/
structure LightData where
  chaosPos : Vec3
  targetPos : Vec3
  currentPos : Vec3
deriving DecidableEq, Repr

/-- A backing-store object of a group (`groupRef.current.children[i]`); its
`position` is copied from the data's `currentPos` each tick, and its Euler
`rotation` components are incremented for the spinning groups. -/
structure Mesh where
  position : Vec3
  rotation : Vec3
deriving DecidableEq, Repr

/-- Result of one group tick: updated backing store, updated data array, and
whether the tick aborted with a `TypeError` (the `data[i]` read returned
`undefined`). -/
structure GroupTick (α β : Type) where
  children : List α
  data : List β
  crashed : Bool
deriving DecidableEq, Repr

/-- The `PhotoOrnaments` tick (source lines 169-196): `children.forEach((group, i))`
reads `data[i]` and lerps `currentPos` toward the phase target with factor
`delta * (isFormed ? 0.8 * weight : 0.5)`, then copies it to the child's
position.  Walking both lists in lockstep is the indexed access; a child with
no datum at its index is the thrown `TypeError`, which leaves the remaining
children untouched.  Orientation (`lookAt` plus sinusoidal wobble when formed,
free spin in chaos) is transcendental and outside the claims; the child is
modelled by its position alone. -/
def ornamentsLoop (isFormed : Bool) (dt : ℚ) : List Vec3 → List OrnData → GroupTick Vec3 OrnData
  | [], ds => ⟨[], ds, false⟩
  | g :: gs, [] => ⟨g :: gs, [], true⟩
  | _ :: gs, d :: ds =>
    let target := if isFormed then d.targetPos else d.chaosPos
    let cur := d.currentPos.lerp target (dt * (if isFormed then 4 / 5 * d.weight else 1 / 2))
    let r := ornamentsLoop isFormed dt gs ds
    ⟨cur :: r.children, { d with currentPos := cur } :: r.data, r.crashed⟩

/-- The `ChristmasElements` tick (source lines 267-278): lerp factor `delta * 1.5`,
then the mesh spins by `delta * rotationSpeed` on all three axes. -/
def elementsLoop (isFormed : Bool) (dt : ℚ) : List Mesh → List ElemData → GroupTick Mesh ElemData
  | [], ds => ⟨[], ds, false⟩
  | m :: ms, [] => ⟨m :: ms, [], true⟩
  | m :: ms, d :: ds =>
    let target := if isFormed then d.targetPos else d.chaosPos
    let cur := d.currentPos.lerp target (dt * (3 / 2))
    let rot : Vec3 := ⟨m.rotation.x + dt * d.rotationSpeed.x,
                       m.rotation.y + dt * d.rotationSpeed.y,
                       m.rotation.z + dt * d.rotationSpeed.z⟩
    let r := elementsLoop isFormed dt ms ds
    ⟨⟨cur, rot⟩ :: r.children, { d with currentPos := cur } :: r.data, r.crashed⟩

/-- The `FairyLights` tick (source lines 309-322): lerp factor `delta * 2.0`; the
emissive-intensity write (`Math.sin`) is outside the claims and does not
affect positions. -/
def lightsLoop (isFormed : Bool) (dt : ℚ) : List Vec3 → List LightData → GroupTick Vec3 LightData
  | [], ds => ⟨[], ds, false⟩
  | g :: gs, [] => ⟨g :: gs, [], true⟩
  | _ :: gs, d :: ds =>
    let cur := d.currentPos.lerp (if isFormed then d.targetPos else d.chaosPos) (dt * 2)
    let r := lightsLoop isFormed dt gs ds
    ⟨cur :: r.children, { d with currentPos := cur } :: r.data, r.crashed⟩

/-- The per-object position sequence of the convergence scenario: one object
with `chaosPosition = (0,0,0)`, `targetPosition = (10,0,0)`, repeatedly lerped
toward the `FORMED` target with a fixed factor `α = deltaTime * rate`, exactly
as every per-object group tick above does. -/
def tickXn (α : ℚ) : ℕ → Vec3
  | 0 => ⟨0, 0, 0⟩
  | n + 1 => (tickXn α n).lerp ⟨10, 0, 0⟩ α

/-- Modelled from the spec (claim C6): the claimed per-frame rotation value,
determined by hand presence alone — `0` for a zero-hand frame, otherwise
`speed = (0.5 - wristX) * 0.15` thresholded at `|speed| > 0.01`. -/
def specRotationValue (f : Frame) : ℚ :=
  match f.hands with
  | [] => 0
  | h :: _ =>
    match h.landmarks with
    | [] => 0
    | w :: _ =>
      let speed := (1 / 2 - w.x) * (15 / 100)
      if 1 / 100 < |speed| then speed else 0

/-! ### Concrete inputs used by the witnesses and counterexamples -/

/-- A well-formed 21-point hand making the OK sign in `CHAOS` phase:
wrist `(0.5, 0.9)`, thumb tip = index tip `(0.5, 0.6)` (so `norm = 0`),
middle/ring/pinky tips far from the wrist, bounding box
`[0.3, 0.7] × [0.5, 0.9]` (width `0.4`, `diagSq = 0.32`). -/
def handOKlm : List Pt :=
  [⟨1/2, 9/10⟩, ⟨3/10, 1/2⟩, ⟨7/10, 9/10⟩, ⟨1/2, 7/10⟩, ⟨1/2, 3/5⟩,
   ⟨1/2, 7/10⟩, ⟨1/2, 7/10⟩, ⟨1/2, 7/10⟩, ⟨1/2, 3/5⟩, ⟨1/2, 7/10⟩,
   ⟨1/2, 7/10⟩, ⟨1/2, 7/10⟩, ⟨1/2, 1/2⟩, ⟨1/2, 7/10⟩, ⟨1/2, 7/10⟩,
   ⟨1/2, 7/10⟩, ⟨9/20, 1/2⟩, ⟨1/2, 7/10⟩, ⟨1/2, 7/10⟩, ⟨1/2, 7/10⟩,
   ⟨11/20, 1/2⟩]

def handOK : Hand := ⟨handOKlm, "None", 0⟩

/-- Like `handOKlm` but with the index tip at `(0.5, 0.7)`, so the
thumb-index distance is `0.1` and `norm = 0.1 / 0.4 = 0.25` exactly. -/
def handOK25lm : List Pt :=
  [⟨1/2, 9/10⟩, ⟨3/10, 1/2⟩, ⟨7/10, 9/10⟩, ⟨1/2, 7/10⟩, ⟨1/2, 3/5⟩,
   ⟨1/2, 7/10⟩, ⟨1/2, 7/10⟩, ⟨1/2, 7/10⟩, ⟨1/2, 7/10⟩, ⟨1/2, 7/10⟩,
   ⟨1/2, 7/10⟩, ⟨1/2, 7/10⟩, ⟨1/2, 1/2⟩, ⟨1/2, 7/10⟩, ⟨1/2, 7/10⟩,
   ⟨1/2, 7/10⟩, ⟨9/20, 1/2⟩, ⟨1/2, 7/10⟩, ⟨1/2, 7/10⟩, ⟨1/2, 7/10⟩,
   ⟨11/20, 1/2⟩]

/-- A 21-point hand for the movement-unpick scenario: wrist `(0.52, 0.5)`,
bounding box `[0.46, 0.58] × [0.40, 0.56]` (so `diagSq = 0.12^2 + 0.16^2 =
0.04`, i.e. `diag = 0.2`), OK sign still geometrically satisfied
(`norm = 0 < 0.22`, all three other tips extended past `0.38`). -/
def handC7lm : List Pt :=
  [⟨13/25, 1/2⟩, ⟨13/25, 2/5⟩, ⟨13/25, 14/25⟩, ⟨13/25, 1/2⟩, ⟨13/25, 12/25⟩,
   ⟨13/25, 1/2⟩, ⟨13/25, 1/2⟩, ⟨13/25, 1/2⟩, ⟨13/25, 12/25⟩, ⟨13/25, 1/2⟩,
   ⟨13/25, 1/2⟩, ⟨13/25, 1/2⟩, ⟨13/25, 81/200⟩, ⟨13/25, 1/2⟩, ⟨13/25, 1/2⟩,
   ⟨13/25, 1/2⟩, ⟨23/50, 11/25⟩, ⟨13/25, 1/2⟩, ⟨13/25, 1/2⟩, ⟨13/25, 1/2⟩,
   ⟨29/50, 11/25⟩]

def handC7 : Hand := ⟨handC7lm, "None", 0⟩

/-- A malformed 5-point hand (too few landmarks). -/
def hand5 : Hand := ⟨[⟨1/2, 1/2⟩, ⟨1/2, 1/2⟩, ⟨1/2, 1/2⟩, ⟨1/2, 1/2⟩, ⟨1/2, 1/2⟩], "None", 0⟩

/-- A malformed 22-point hand: `handOKlm` plus one extra point. -/
def hand22 : Hand := ⟨handOKlm ++ [⟨1/2, 7/10⟩], "None", 0⟩

def cfgChaos : Config := ⟨Phase.CHAOS, false, 5⟩

/-- okFrameCount already at 1, cooldown long expired. -/
def stIdle1 : GState := ⟨0, false, 1, none⟩

/-- A pick currently asserted, anchored at `(0.5, 0.5)`. -/
def stActive : GState := ⟨0, true, 2, some (1/2, 1/2)⟩

def frameOK : Frame := ⟨[handOK], 1000, 0⟩

def frameZero : Frame := ⟨[], 1000, 0⟩

/-- A backing-store object at the origin with no spin. -/
def m0 : Mesh := ⟨⟨0, 0, 0⟩, ⟨0, 0, 0⟩⟩

/-- The convergence-scenario element: `chaosPosition = (0,0,0)`,
`targetPosition = (10,0,0)`, starting at the chaos position. -/
def e0 : ElemData := ⟨⟨0, 0, 0⟩, ⟨10, 0, 0⟩, ⟨0, 0, 0⟩, ⟨0, 0, 0⟩⟩

/-! ### Structural lemmas about the interpreter stages -/

theorem hasPick_append (a b : List Event) : hasPick (a ++ b) = (hasPick a || hasPick b) := by
  simp [hasPick]

theorem hasUnpick_append (a b : List Event) : hasUnpick (a ++ b) = (hasUnpick a || hasUnpick b) := by
  simp [hasUnpick]

theorem hasPick_nil : hasPick [] = false := rfl

theorem hasUnpick_nil : hasUnpick [] = false := rfl

theorem hasUnpick_unpickSingleton : hasUnpick [Event.unpick] = true := rfl

theorem hasUnpick_pickSingleton (i : ℕ) : hasUnpick [Event.pick i] = false := rfl

theorem hasPick_pickSingleton (i : ℕ) : hasPick [Event.pick i] = true := rfl

theorem risingEdge_of_active (cfg : Config) (st : GState) (cnt : ℕ) (w : Pt) (now rand : ℚ)
    (h : st.okActive = true) :
    risingEdge cfg st cnt w now rand = ({ st with okFrameCount := cnt }, []) := by
  unfold risingEdge
  split_ifs with hg
  · simp [h] at hg
  · rfl

theorem risingEdge_stale (cfg : Config) (st : GState) (cnt : ℕ) (w : Pt) (now rand : ℚ)
    (h : now ≤ st.lastPickTime + PICK_COOLDOWN) :
    risingEdge cfg st cnt w now rand = ({ st with okFrameCount := cnt }, []) := by
  unfold risingEdge
  split_ifs with hg
  · exact absurd hg.2.2.2 (by linarith)
  · rfl

theorem risingEdge_cases (cfg : Config) (st : GState) (cnt : ℕ) (w : Pt) (now rand : ℚ) :
    (OK_HOLD_FRAMES ≤ cnt ∧ st.okActive = false ∧
      risingEdge cfg st cnt w now rand =
        ({ lastPickTime := now, okActive := true, okFrameCount := cnt,
           lastPickHandPos := some (w.x, w.y) },
         [Event.pick (Int.toNat ⌊rand * (cfg.photosCount : ℚ)⌋)])) ∨
    risingEdge cfg st cnt w now rand = ({ st with okFrameCount := cnt }, []) := by
  unfold risingEdge
  split_ifs with hg
  · exact Or.inl ⟨hg.1, hg.2.1, rfl⟩
  · exact Or.inr rfl

theorem fallingEdgeReleased_cases (g : Bool) (s : GState) :
    fallingEdgeReleased g s =
        ({ s with okActive := false, lastPickHandPos := none }, [Event.unpick]) ∨
    fallingEdgeReleased g s = (s, []) := by
  unfold fallingEdgeReleased
  split_ifs
  · exact Or.inl rfl
  · exact Or.inr rfl

theorem fallingEdgeReleased_of_inactive (g : Bool) (s : GState) (h : s.okActive = false) :
    fallingEdgeReleased g s = (s, []) := by
  unfold fallingEdgeReleased
  split_ifs with hg
  · simp [h] at hg
  · rfl

theorem fallingEdgeMoved_cases (w : Pt) (dg : ℚ) (s : GState) :
    fallingEdgeMoved w dg s =
        ({ s with okActive := false, lastPickHandPos := none }, [Event.unpick]) ∨
    fallingEdgeMoved w dg s = (s, []) := by
  unfold fallingEdgeMoved
  rcases hb : s.okActive
  · exact Or.inr rfl
  · rcases ha : s.lastPickHandPos with _ | a
    · exact Or.inr rfl
    · dsimp only
      split_ifs
      · exact Or.inl rfl
      · exact Or.inr rfl

theorem fallingEdgeMoved_of_inactive (w : Pt) (dg : ℚ) (s : GState) (h : s.okActive = false) :
    fallingEdgeMoved w dg s = (s, []) := by
  unfold fallingEdgeMoved
  rw [h]

theorem hasPick_fallingEdgeReleased (g : Bool) (s : GState) :
    hasPick (fallingEdgeReleased g s).2 = false := by
  rcases fallingEdgeReleased_cases g s with h | h <;> rw [h] <;> rfl

theorem hasPick_fallingEdgeMoved (w : Pt) (dg : ℚ) (s : GState) :
    hasPick (fallingEdgeMoved w dg s).2 = false := by
  rcases fallingEdgeMoved_cases w dg s with h | h <;> rw [h] <;> rfl

theorem gestureEvents_shape (h : Hand) (e : Event) (he : e ∈ gestureEvents h) :
    ∃ p, e = Event.setScene p := by
  unfold gestureEvents at he
  split_ifs at he <;> simp at he
  all_goals
    first
    | exact ⟨_, he⟩
    | ( rcases he with he | he <;> exact ⟨_, he⟩)

theorem hasPick_gestureEvents (h : Hand) : hasPick (gestureEvents h) = false := by
  rw [hasPick, List.any_eq_false]
  intro e he
  rcases gestureEvents_shape h e he with ⟨p, rfl⟩
  simp [isPick]

theorem hasUnpick_gestureEvents (h : Hand) : hasUnpick (gestureEvents h) = false := by
  rw [hasUnpick, List.any_eq_false]
  intro e he
  rcases gestureEvents_shape h e he with ⟨p, rfl⟩
  simp [isUnpick]

theorem fallingEdgeReleased_lastPickTime (g : Bool) (s : GState) :
    (fallingEdgeReleased g s).1.lastPickTime = s.lastPickTime := by
  rcases fallingEdgeReleased_cases g s with h | h <;> simp [h]

theorem fallingEdgeMoved_lastPickTime (w : Pt) (dg : ℚ) (s : GState) :
    (fallingEdgeMoved w dg s).1.lastPickTime = s.lastPickTime := by
  rcases fallingEdgeMoved_cases w dg s with h | h <;> simp [h]

theorem fallingEdgeReleased_okFrameCount (g : Bool) (s : GState) :
    (fallingEdgeReleased g s).1.okFrameCount = s.okFrameCount := by
  rcases fallingEdgeReleased_cases g s with h | h <;> simp [h]

theorem fallingEdgeMoved_okFrameCount (w : Pt) (dg : ℚ) (s : GState) :
    (fallingEdgeMoved w dg s).1.okFrameCount = s.okFrameCount := by
  rcases fallingEdgeMoved_cases w dg s with h | h <;> simp [h]

/-- If the geometric test held and the debounced count is nonzero, the
released-sign falling edge does not fire. -/
theorem fallingEdgeReleased_silent (g : Bool) (s : GState) (h1 : g = true)
    (h2 : ¬ s.okFrameCount = 0) :
    fallingEdgeReleased g s = (s, []) := by
  unfold fallingEdgeReleased
  rw [if_neg]
  intro hcon
  rcases hcon.2 with hcon2 | hcon2
  · rw [h1] at hcon2; cases hcon2
  · exact h2 hcon2

/-- If the anchor is this frame's wrist position, the movement falling edge
does not fire (the displacement is zero). -/
theorem fallingEdgeMoved_zero (w : Pt) (dg : ℚ) (s : GState)
    (hanc : s.lastPickHandPos = some (w.x, w.y)) :
    fallingEdgeMoved w dg s = (s, []) := by
  unfold fallingEdgeMoved
  rcases hb : s.okActive
  · rfl
  · rw [hanc]
    dsimp only
    rw [if_neg]
    intro hlt
    have h1 : (0 : ℚ) < max (1 / 1000000) dg :=
      lt_of_lt_of_le (by norm_num) (le_max_left _ _)
    have h2 : (0 : ℚ) ≤ MOVE_UNPICK_THRESHOLD ^ 2 * max (1 / 1000000) dg :=
      mul_nonneg (sq_nonneg _) h1.le
    have hz : (w.x - w.x) ^ 2 + (w.y - w.y) ^ 2 = (0 : ℚ) := by ring
    rw [hz] at hlt
    linarith

theorem okCore_noPick_of_active (cfg : Config) (st : GState) (gc oe : Bool) (w : Pt)
    (dg now rand : ℚ) (h : st.okActive = true) :
    hasPick (okCore cfg st gc oe w dg now rand).2 = false := by
  simp only [okCore]
  rw [risingEdge_of_active cfg st _ w now rand h]
  simp [hasPick_append, hasPick_fallingEdgeReleased, hasPick_fallingEdgeMoved, hasPick_nil]

theorem okCore_active_of_noUnpick (cfg : Config) (st : GState) (gc oe : Bool) (w : Pt)
    (dg now rand : ℚ) (h : st.okActive = true)
    (hn : hasUnpick (okCore cfg st gc oe w dg now rand).2 = false) :
    (okCore cfg st gc oe w dg now rand).1.okActive = true := by
  simp only [okCore] at hn ⊢
  rw [risingEdge_of_active cfg st _ w now rand h] at hn ⊢
  rcases fallingEdgeReleased_cases gc
      { st with okFrameCount := debouncedCount (gc && oe) st.okFrameCount } with h2 | h2 <;>
    rw [h2] at hn ⊢
  · simp [hasUnpick, isUnpick] at hn
  · rcases fallingEdgeMoved_cases w dg
        { st with okFrameCount := debouncedCount (gc && oe) st.okFrameCount } with h3 | h3 <;>
      rw [h3] at hn ⊢
    · simp [hasUnpick, isUnpick] at hn
    · exact h

theorem okCore_cooldown (cfg : Config) (st : GState) (gc oe : Bool) (w : Pt)
    (dg now rand : ℚ) (h : now ≤ st.lastPickTime + PICK_COOLDOWN) :
    hasPick (okCore cfg st gc oe w dg now rand).2 = false ∧
    (okCore cfg st gc oe w dg now rand).1.lastPickTime = st.lastPickTime := by
  simp only [okCore]
  rw [risingEdge_stale cfg st _ w now rand h]
  constructor
  · simp [hasPick_append, hasPick_fallingEdgeReleased, hasPick_fallingEdgeMoved, hasPick_nil]
  · rw [fallingEdgeMoved_lastPickTime, fallingEdgeReleased_lastPickTime]

theorem okCore_pick_time (cfg : Config) (st : GState) (gc oe : Bool) (w : Pt)
    (dg now rand : ℚ) (hp : hasPick (okCore cfg st gc oe w dg now rand).2 = true) :
    (okCore cfg st gc oe w dg now rand).1.lastPickTime = now := by
  simp only [okCore] at hp ⊢
  rcases risingEdge_cases cfg st (debouncedCount (gc && oe) st.okFrameCount) w now rand with
    ⟨hc, ha, hre⟩ | hre <;> rw [hre] at hp ⊢
  · rw [fallingEdgeMoved_lastPickTime, fallingEdgeReleased_lastPickTime]
  · simp [hasPick_append, hasPick_fallingEdgeReleased, hasPick_fallingEdgeMoved, hasPick_nil] at hp

theorem okCore_pick_or (cfg : Config) (st : GState) (gc oe : Bool) (w : Pt)
    (dg now rand : ℚ) :
    hasPick (okCore cfg st gc oe w dg now rand).2 = false ∨
    hasUnpick (okCore cfg st gc oe w dg now rand).2 = false := by
  simp only [okCore]
  rcases risingEdge_cases cfg st (debouncedCount (gc && oe) st.okFrameCount) w now rand with
    ⟨hc, ha, hre⟩ | hre <;> rw [hre]
  · right
    -- the rising edge fired, so the geometric test held this frame, the count
    -- is nonzero, and the anchor is this frame's wrist: no falling edge fires.
    have hgo : (gc && oe) = true := by
      cases hgo : (gc && oe)
      · rw [hgo] at hc; simp [debouncedCount, OK_HOLD_FRAMES] at hc
      · rfl
    have hgc : gc = true := ((Bool.and_eq_true gc oe).mp hgo).1
    have hcnt : ¬ debouncedCount (gc && oe) st.okFrameCount = 0 := by
      simp only [debouncedCount, hgo, if_true, OK_HOLD_FRAMES]
      omega
    rw [fallingEdgeReleased_silent gc _ hgc hcnt]
    rw [fallingEdgeMoved_zero w dg _ rfl]
    rfl
  · left
    simp [hasPick_append, hasPick_fallingEdgeReleased, hasPick_fallingEdgeMoved, hasPick_nil]

theorem okBlock_cases (cfg : Config) (st : GState) (lm : List Pt) (now rand : ℚ) :
    okBlock cfg st lm now rand = (st, []) ∨
    ∃ gc oe w, okBlock cfg st lm now rand = okCore cfg st gc oe w (diagSq (bboxOf lm)) now rand := by
  simp only [okBlock]
  split
  · split
    · exact Or.inl rfl
    · exact Or.inr ⟨_, _, _, rfl⟩
  · exact Or.inl rfl

theorem hasPick_setRotationSingleton (v : ℚ) : hasPick [Event.setRotation v] = false := rfl

theorem hasUnpick_setRotationSingleton (v : ℚ) : hasUnpick [Event.setRotation v] = false := rfl

/-- The three control paths of one frame: zero hands; a first hand with an
empty landmark list (uncaught throw at the wrist read); the normal path. -/
theorem processFrame_shape (cfg : Config) (st : GState) (f : Frame) :
    ((processFrame cfg st f).events = [Event.setRotation 0] ∧
      (processFrame cfg st f).state = st ∧ (processFrame cfg st f).crashed = false) ∨
    (∃ h rest, f.hands = h :: rest ∧ (processFrame cfg st f).events = gestureEvents h ∧
      (processFrame cfg st f).state = st ∧ (processFrame cfg st f).crashed = true) ∨
    (∃ h rest v, f.hands = h :: rest ∧
      (processFrame cfg st f).events = gestureEvents h ++ [Event.setRotation v] ++
        (okBlock cfg st h.landmarks f.now f.rand).2 ∧
      (processFrame cfg st f).state = (okBlock cfg st h.landmarks f.now f.rand).1 ∧
      (processFrame cfg st f).crashed = false) := by
  obtain ⟨hs, now, rand⟩ := f
  cases hs with
  | nil => exact Or.inl ⟨rfl, rfl, rfl⟩
  | cons hd tl =>
    simp only [processFrame]
    cases h0 : hd.landmarks[0]? with
    | none => exact Or.inr (Or.inl ⟨hd, tl, rfl, rfl, rfl, rfl⟩)
    | some w0 => exact Or.inr (Or.inr ⟨hd, tl, _, rfl, rfl, rfl, rfl⟩)

theorem processFrame_noPick_of_active (cfg : Config) (st : GState) (f : Frame)
    (h : st.okActive = true) :
    hasPick (processFrame cfg st f).events = false := by
  rcases processFrame_shape cfg st f with ⟨hev, -, -⟩ | ⟨hd, rest, -, hev, -, -⟩ |
    ⟨hd, rest, v, -, hev, -, -⟩ <;> rw [hev]
  · rfl
  · exact hasPick_gestureEvents hd
  · rw [hasPick_append, hasPick_append, hasPick_gestureEvents, hasPick_setRotationSingleton]
    rcases okBlock_cases cfg st hd.landmarks f.now f.rand with hob | ⟨gc, oe, w, hob⟩ <;>
      rw [hob]
    · rfl
    · simp [okCore_noPick_of_active cfg st gc oe w (diagSq (bboxOf hd.landmarks)) f.now f.rand h]

theorem processFrame_active_of_noUnpick (cfg : Config) (st : GState) (f : Frame)
    (h : st.okActive = true)
    (hn : hasUnpick (processFrame cfg st f).events = false) :
    (processFrame cfg st f).state.okActive = true := by
  rcases processFrame_shape cfg st f with ⟨hev, hst, -⟩ | ⟨hd, rest, -, hev, hst, -⟩ |
    ⟨hd, rest, v, -, hev, hst, -⟩ <;> rw [hst]
  · exact h
  · exact h
  · rw [hev, hasUnpick_append, hasUnpick_append, hasUnpick_gestureEvents,
      hasUnpick_setRotationSingleton] at hn
    simp only [Bool.false_or] at hn
    rcases okBlock_cases cfg st hd.landmarks f.now f.rand with hob | ⟨gc, oe, w, hob⟩ <;>
      rw [hob]
    · exact h
    · rw [hob] at hn
      exact okCore_active_of_noUnpick cfg st gc oe w _ f.now f.rand h hn

theorem processFrame_cooldown (cfg : Config) (st : GState) (f : Frame)
    (h : f.now ≤ st.lastPickTime + PICK_COOLDOWN) :
    hasPick (processFrame cfg st f).events = false ∧
    (processFrame cfg st f).state.lastPickTime = st.lastPickTime := by
  rcases processFrame_shape cfg st f with ⟨hev, hst, -⟩ | ⟨hd, rest, -, hev, hst, -⟩ |
    ⟨hd, rest, v, -, hev, hst, -⟩ <;> rw [hev, hst]
  · exact ⟨rfl, rfl⟩
  · exact ⟨hasPick_gestureEvents hd, rfl⟩
  · rw [hasPick_append, hasPick_append, hasPick_gestureEvents, hasPick_setRotationSingleton]
    rcases okBlock_cases cfg st hd.landmarks f.now f.rand with hob | ⟨gc, oe, w, hob⟩ <;>
      rw [hob]
    · exact ⟨rfl, rfl⟩
    · have := okCore_cooldown cfg st gc oe w (diagSq (bboxOf hd.landmarks)) f.now f.rand h
      exact ⟨by simp [this.1], this.2⟩

theorem processFrame_pick_time (cfg : Config) (st : GState) (f : Frame)
    (hp : hasPick (processFrame cfg st f).events = true) :
    (processFrame cfg st f).state.lastPickTime = f.now := by
  rcases processFrame_shape cfg st f with ⟨hev, hst, -⟩ | ⟨hd, rest, -, hev, hst, -⟩ |
    ⟨hd, rest, v, -, hev, hst, -⟩
  · rw [hev] at hp; cases hp
  · rw [hev, hasPick_gestureEvents] at hp; cases hp
  · rw [hev, hasPick_append, hasPick_append, hasPick_gestureEvents,
      hasPick_setRotationSingleton] at hp
    simp only [Bool.false_or] at hp
    rw [hst]
    rcases okBlock_cases cfg st hd.landmarks f.now f.rand with hob | ⟨gc, oe, w, hob⟩
    · rw [hob] at hp; cases hp
    · rw [hob] at hp ⊢
      exact okCore_pick_time cfg st gc oe w _ f.now f.rand hp

/-- Concrete evaluation: from `stIdle1` (one satisfying frame already seen,
cooldown expired), the OK frame fires a pick anchored at the wrist. -/
theorem eval_processFrame_frameOK :
    processFrame cfgChaos stIdle1 frameOK =
      ⟨⟨1000, true, 2, some (1/2, 9/10)⟩, [Event.setRotation 0, Event.pick 0], false⟩ := by
  have h4 : handOKlm[4]? = some ⟨1/2, 3/5⟩ := rfl
  have h8 : handOKlm[8]? = some ⟨1/2, 3/5⟩ := rfl
  have h0 : handOKlm[0]? = some ⟨1/2, 9/10⟩ := rfl
  have h12 : handOKlm[12]? = some ⟨1/2, 1/2⟩ := rfl
  have h16 : handOKlm[16]? = some ⟨9/20, 1/2⟩ := rfl
  have h20 : handOKlm[20]? = some ⟨11/20, 1/2⟩ := rfl
  norm_num [processFrame, frameOK, handOK, okBlock, okCore, gestureEvents, otherLoop,
    risingEdge, fallingEdgeReleased, fallingEdgeMoved, debouncedCount, distSq,
    bboxOf, handOKlm, bboxW, diagSq, normThreshold, otherThreshold,
    OK_HOLD_FRAMES, PICK_COOLDOWN, MOVE_UNPICK_THRESHOLD, stIdle1, cfgChaos,
    min_def, max_def, h4, h8, h0, h12, h16, h20]

/-! ### Claim theorems -/

/-- Auxiliary induction: from a state with an asserted pick, as long as no
`Unpick` is emitted across the run, no `Pick` is emitted either. -/
theorem runFrames_noPick_of_active (cfg : Config) : ∀ (fs : List Frame) (st : GState),
    st.okActive = true → hasUnpick (runFrames cfg st fs).2 = false →
    hasPick (runFrames cfg st fs).2 = false
  | [], _, _, _ => rfl
  | f :: fs, st, h, hn => by
    simp only [runFrames] at hn ⊢
    by_cases hc : (processFrame cfg st f).crashed
    · rw [if_pos hc] at hn ⊢
      exact processFrame_noPick_of_active cfg st f h
    · rw [if_neg hc] at hn ⊢
      rw [hasPick_append]
      rw [hasUnpick_append] at hn
      simp only [Bool.or_eq_false_iff] at hn
      rw [processFrame_noPick_of_active cfg st f h]
      rw [runFrames_noPick_of_active cfg fs (processFrame cfg st f).state
        (processFrame_active_of_noUnpick cfg st f h hn.1) hn.2]
      rfl

/-- Claim C1: once `okActive` is true, no further `Pick` is emitted on any
subsequent frame — no matter how many frames keep satisfying the OK-sign
predicate — until an `Unpick` has been emitted. -/
theorem c1_at_most_one_open_pick (cfg : Config) (st : GState) (fs : List Frame)
    (hact : st.okActive = true)
    (hnu : hasUnpick (runFrames cfg st fs).2 = false) :
    hasPick (runFrames cfg st fs).2 = false :=
  runFrames_noPick_of_active cfg fs st hact hnu

theorem c1_witness :
    stActive.okActive = true ∧
    hasUnpick (runFrames cfgChaos stActive [frameZero]).2 = false ∧
    hasPick (runFrames cfgChaos stActive [frameZero]).2 = false :=
  ⟨rfl, rfl, c1_at_most_one_open_pick cfgChaos stActive [frameZero] rfl rfl⟩

/-- Claim C2 counterexample: a zero-hand frame does *not* reset the OK-sign
debounce state — from `okFrameCount = 1` it stays `1`, not `0`. -/
theorem c2_counterexample :
    stIdle1.okFrameCount = 1 ∧
    (processFrame cfgChaos stIdle1 frameZero).state.okFrameCount ≠ 0 := by
  constructor
  · rfl
  · intro h
    exact absurd h (by norm_num [processFrame, frameZero, stIdle1])

/-- Claim C2 (amended): processing a zero-hand frame leaves the interpreter
state entirely unchanged — `okFrameCount` persists instead of being reset —
and the frame emits only `SetRotation(0)`. -/
theorem c2_zero_hand_frame_state_unchanged (cfg : Config) (st : GState) (now rand : ℚ) :
    processFrame cfg st ⟨[], now, rand⟩ = ⟨st, [Event.setRotation 0], false⟩ := rfl

/-- Auxiliary induction for the cooldown: while every frame's timestamp is
within the cooldown window of `lastPickTime`, no pick fires and
`lastPickTime` is unchanged. -/
theorem runFrames_noPick_of_recent (cfg : Config) (t0 : ℚ) : ∀ (fs : List Frame) (st : GState),
    st.lastPickTime = t0 → (∀ g ∈ fs, g.now ≤ t0 + PICK_COOLDOWN) →
    hasPick (runFrames cfg st fs).2 = false
  | [], _, _, _ => rfl
  | f :: fs, st, ht, hall => by
    simp only [runFrames]
    have hf : f.now ≤ st.lastPickTime + PICK_COOLDOWN := by
      rw [ht]; exact hall f (List.mem_cons_self f fs)
    have hcd := processFrame_cooldown cfg st f hf
    by_cases hc : (processFrame cfg st f).crashed
    · rw [if_pos hc]; exact hcd.1
    · rw [if_neg hc, hasPick_append, hcd.1]
      rw [runFrames_noPick_of_recent cfg t0 fs (processFrame cfg st f).state
        (by rw [hcd.2, ht]) (fun g hg => hall g (List.mem_cons_of_mem f hg))]
      rfl

/-- Claim C4: after a frame that emitted a `Pick` (which stamps
`lastPickTime` with that frame's time), any run of subsequent frames whose
timestamps lie within 800ms of it emits no further `Pick` — the second rising
edge is suppressed by the cooldown. -/
theorem c4_cooldown_single_pick (cfg : Config) (st : GState) (f : Frame) (fs : List Frame)
    (hp : hasPick (processFrame cfg st f).events = true)
    (hfs : ∀ g ∈ fs, g.now ≤ f.now + PICK_COOLDOWN) :
    hasPick (runFrames cfg (processFrame cfg st f).state fs).2 = false :=
  runFrames_noPick_of_recent cfg f.now fs (processFrame cfg st f).state
    (processFrame_pick_time cfg st f hp) hfs

theorem c4_witness :
    hasPick (processFrame cfgChaos stIdle1 frameOK).events = true ∧
    (∀ g ∈ [(⟨[handOK], 1500, 0⟩ : Frame)], g.now ≤ frameOK.now + PICK_COOLDOWN) ∧
    hasPick (runFrames cfgChaos (processFrame cfgChaos stIdle1 frameOK).state
      [(⟨[handOK], 1500, 0⟩ : Frame)]).2 = false := by
  have hp : hasPick (processFrame cfgChaos stIdle1 frameOK).events = true := by
    rw [eval_processFrame_frameOK]
    rfl
  have hall : ∀ g ∈ [(⟨[handOK], 1500, 0⟩ : Frame)], g.now ≤ frameOK.now + PICK_COOLDOWN := by
    intro g hg
    rw [List.mem_singleton] at hg
    subst hg
    norm_num [frameOK, PICK_COOLDOWN]
  exact ⟨hp, hall, c4_cooldown_single_pick cfgChaos stIdle1 frameOK _ hp hall⟩

/-- Claim C10: no single frame's processing emits both a `Pick` and an
`Unpick`: when a `Pick` fires, the predicate held (so the sign-released edge
cannot fire) and the anchor equals that frame's wrist (so the movement edge
sees zero displacement). -/
theorem c10_no_pick_and_unpick_same_frame (cfg : Config) (st : GState) (f : Frame) :
    hasPick (processFrame cfg st f).events = false ∨
    hasUnpick (processFrame cfg st f).events = false := by
  rcases processFrame_shape cfg st f with ⟨hev, -, -⟩ | ⟨hd, rest, -, hev, -, -⟩ |
    ⟨hd, rest, v, -, hev, -, -⟩
  · left; rw [hev]; rfl
  · left; rw [hev]; exact hasPick_gestureEvents hd
  · rw [hev, hasPick_append, hasPick_append, hasUnpick_append, hasUnpick_append,
      hasPick_gestureEvents, hasUnpick_gestureEvents, hasPick_setRotationSingleton,
      hasUnpick_setRotationSingleton]
    simp only [Bool.false_or]
    rcases okBlock_cases cfg st hd.landmarks f.now f.rand with hob | ⟨gc, oe, w, hob⟩ <;>
      rw [hob]
    · left; rfl
    · exact okCore_pick_or cfg st gc oe w _ f.now f.rand


/-- Geometric decay of the remaining distance under the per-object lerp. -/
theorem tickXn_gap (α : ℚ) : ∀ n : ℕ, 10 - (tickXn α n).x = 10 * (1 - α) ^ n
  | 0 => by simp [tickXn]
  | n + 1 => by
    have ih := tickXn_gap α n
    have hstep : (tickXn α (n + 1)).x =
        (tickXn α n).x + (10 - (tickXn α n).x) * α := by
      simp [tickXn, Vec3.lerp]
    calc 10 - (tickXn α (n + 1)).x
        = (10 - (tickXn α n).x) * (1 - α) := by rw [hstep]; ring
      _ = 10 * (1 - α) ^ n * (1 - α) := by rw [ih]
      _ = 10 * (1 - α) ^ (n + 1) := by ring

/-- Claim C3 counterexample: with `deltaTime = 1` the generic-element lerp
factor is `1 * 1.5 > 1`, and a single `FORMED` tick overshoots the target:
`x` jumps from `0` to `15 > 10`. -/
theorem c3_counterexample :
    (elementsLoop true 1 [m0] [e0]).data.map (fun d => d.currentPos.x) = [15] ∧
    (10 : ℚ) < 15 := by
  constructor
  · norm_num [elementsLoop, m0, e0, Vec3.lerp]
  · norm_num

/-- Claim C3 (amended): for a single object with `chaosPosition = (0,0,0)`
and `targetPosition = (10,0,0)`, repeatedly ticking at `phase = FORMED` with a
fixed `deltaTime > 0` whose lerp factor `deltaTime * rate` is at most `1`
(rate `0.8 * weight` for forming ornaments, `1.5` for generic elements, `2.0`
for lights), `currentPosition.x` is monotone nondecreasing, never exceeds 10,
and the remaining distance decays geometrically. -/
theorem c3_lerp_monotone_bounded (dt rate : ℚ) (hdt : 0 < dt)
    (hrate : rate = 3 / 2 ∨ rate = 2 ∨ ∃ w : ℚ, 4 / 5 ≤ w ∧ rate = 4 / 5 * w)
    (hle : dt * rate ≤ 1) (n : ℕ) :
    (tickXn (dt * rate) n).x ≤ (tickXn (dt * rate) (n + 1)).x ∧
    (tickXn (dt * rate) n).x ≤ 10 ∧
    10 - (tickXn (dt * rate) n).x = 10 * (1 - dt * rate) ^ n := by
  have hr : 0 < rate := by
    rcases hrate with h | h | ⟨w, hw, h⟩ <;> subst h
    · norm_num
    · norm_num
    · nlinarith
  have hα : 0 < dt * rate := mul_pos hdt hr
  have h1 : 0 ≤ 1 - dt * rate := by linarith
  have hgap := tickXn_gap (dt * rate) n
  have hpow : 0 ≤ (1 - dt * rate) ^ n := pow_nonneg h1 n
  have hx : 0 ≤ 10 - (tickXn (dt * rate) n).x := by rw [hgap]; nlinarith
  have hstep : (tickXn (dt * rate) (n + 1)).x =
      (tickXn (dt * rate) n).x + (10 - (tickXn (dt * rate) n).x) * (dt * rate) := by
    simp [tickXn, Vec3.lerp]
  refine ⟨?_, by linarith, hgap⟩
  rw [hstep]
  nlinarith [mul_nonneg hx hα.le]

theorem c3_witness :
    (tickXn (1 / 2 * (3 / 2)) 3).x ≤ (tickXn (1 / 2 * (3 / 2)) 4).x ∧
    (tickXn (1 / 2 * (3 / 2)) 3).x ≤ 10 ∧
    10 - (tickXn (1 / 2 * (3 / 2)) 3).x = 10 * (1 - 1 / 2 * (3 / 2)) ^ 3 :=
  c3_lerp_monotone_bounded (1 / 2) (3 / 2) (by norm_num) (Or.inl rfl) (by norm_num) 3

theorem ornamentsLoop_crashed (b : Bool) (dt : ℚ) : ∀ (gs : List Vec3) (ds : List OrnData),
    ((ornamentsLoop b dt gs ds).crashed = true ↔ ds.length < gs.length)
  | [], ds => by simp [ornamentsLoop]
  | g :: gs, [] => by simp [ornamentsLoop]
  | g :: gs, d :: ds => by
    simp only [ornamentsLoop]
    rw [ornamentsLoop_crashed b dt gs ds]
    simp [Nat.succ_lt_succ_iff]

theorem elementsLoop_crashed (b : Bool) (dt : ℚ) : ∀ (ms : List Mesh) (ds : List ElemData),
    ((elementsLoop b dt ms ds).crashed = true ↔ ds.length < ms.length)
  | [], ds => by simp [elementsLoop]
  | m :: ms, [] => by simp [elementsLoop]
  | m :: ms, d :: ds => by
    simp only [elementsLoop]
    rw [elementsLoop_crashed b dt ms ds]
    simp [Nat.succ_lt_succ_iff]

theorem lightsLoop_crashed (b : Bool) (dt : ℚ) : ∀ (gs : List Vec3) (ds : List LightData),
    ((lightsLoop b dt gs ds).crashed = true ↔ ds.length < gs.length)
  | [], ds => by simp [lightsLoop]
  | g :: gs, [] => by simp [lightsLoop]
  | g :: gs, d :: ds => by
    simp only [lightsLoop]
    rw [lightsLoop_crashed b dt gs ds]
    simp [Nat.succ_lt_succ_iff]

/-- Claim C9 counterexample: with 2 backing-store objects and 1 data entry the
tick is *not* clamped to the minimum: it reads `data[1]`, which is past the end
of the data array (the modelled `TypeError`). -/
theorem c9_counterexample :
    ([m0, m0] : List Mesh).length = 2 ∧ ([e0] : List ElemData).length = 1 ∧
    (elementsLoop true 1 [m0, m0] [e0]).crashed = true :=
  ⟨rfl, rfl, rfl⟩

/-- Claim C9 (amended): iteration is driven by the backing store's children
list, not by a clamped minimum.  When the data array is at least as long as
the backing store, no access past the end of the data array occurs; when the
backing store is longer, the tick aborts with a `TypeError` at the first
missing datum (in all three per-object groups). -/
theorem c9_iteration_bound :
    (∀ (b : Bool) (dt : ℚ) (gs : List Vec3) (ds : List OrnData),
      ((ornamentsLoop b dt gs ds).crashed = true ↔ ds.length < gs.length)) ∧
    (∀ (b : Bool) (dt : ℚ) (ms : List Mesh) (ds : List ElemData),
      ((elementsLoop b dt ms ds).crashed = true ↔ ds.length < ms.length)) ∧
    (∀ (b : Bool) (dt : ℚ) (gs : List Vec3) (ds : List LightData),
      ((lightsLoop b dt gs ds).crashed = true ↔ ds.length < gs.length)) :=
  ⟨ornamentsLoop_crashed, elementsLoop_crashed, lightsLoop_crashed⟩


/-- A first hand with at most 12 landmark points aborts the OK block before
any state mutation: one of the reads `lm[4]`, `lm[8]`, or the middle-tip read
`lm[12]` inside the loop throws, and the catch leaves the state unchanged. -/
theorem okBlock_skip_of_short (cfg : Config) (st : GState) (lm : List Pt) (now rand : ℚ)
    (hlen : lm.length ≤ 12) :
    okBlock cfg st lm now rand = (st, []) := by
  have h12 : lm[12]? = none := List.getElem?_eq_none hlen
  simp only [okBlock]
  split
  · split
    · rfl
    · rename_i oe hloop
      exfalso
      simp only [otherLoop] at hloop
      rw [h12] at hloop
      cases hloop
  · rfl

/-- Claim C5 counterexample: a malformed 22-point hand (wrong point count) is
*not* skipped: the OK-sign logic runs on it, mutates the debounce state, and
here even emits a `Pick`. -/
theorem c5_counterexample :
    hand22.landmarks.length = 22 ∧
    (processFrame cfgChaos stIdle1 (⟨[hand22], 1000, 0⟩ : Frame)).state ≠ stIdle1 ∧
    hasPick (processFrame cfgChaos stIdle1 (⟨[hand22], 1000, 0⟩ : Frame)).events = true := by
  have heval : processFrame cfgChaos stIdle1 (⟨[hand22], 1000, 0⟩ : Frame) =
      ⟨⟨1000, true, 2, some (1/2, 9/10)⟩, [Event.setRotation 0, Event.pick 0], false⟩ := by
    have h4 : hand22.landmarks[4]? = some ⟨1/2, 3/5⟩ := rfl
    have h8 : hand22.landmarks[8]? = some ⟨1/2, 3/5⟩ := rfl
    have h0 : hand22.landmarks[0]? = some ⟨1/2, 9/10⟩ := rfl
    have h12 : hand22.landmarks[12]? = some ⟨1/2, 1/2⟩ := rfl
    have h16 : hand22.landmarks[16]? = some ⟨9/20, 1/2⟩ := rfl
    have h20 : hand22.landmarks[20]? = some ⟨11/20, 1/2⟩ := rfl
    norm_num [processFrame, hand22, okBlock, okCore, gestureEvents, otherLoop,
      risingEdge, fallingEdgeReleased, fallingEdgeMoved, debouncedCount, distSq,
      bboxOf, handOKlm, bboxW, diagSq, normThreshold, otherThreshold,
      OK_HOLD_FRAMES, PICK_COOLDOWN, MOVE_UNPICK_THRESHOLD, stIdle1, cfgChaos,
      min_def, max_def, h4, h8, h0, h12, h16, h20] at h4 h8 h0 h12 h16 h20 ⊢
  refine ⟨rfl, ?_, by rw [heval]; rfl⟩
  rw [heval]
  intro hcon
  rw [GState.mk.injEq] at hcon
  exact absurd hcon.1 (by norm_num [stIdle1])

/-- Claim C5 (amended): a malformed first hand with between 1 and 12 landmark
points aborts OK-sign evaluation at the frame boundary: the debounce state is
unchanged, no `Pick`/`Unpick` is emitted, and the error does not escape the
per-frame handler.  (Coarse gesture classification and rotation are still
evaluated; a hand with more than 21 points, or with 13-20 points whose
middle/ring tip lies close to the wrist, is processed rather than skipped.) -/
theorem c5_short_malformed_hand_is_skipped (cfg : Config) (st : GState) (h : Hand)
    (rest : List Hand) (now rand : ℚ)
    (h1 : 1 ≤ h.landmarks.length) (h2 : h.landmarks.length ≤ 12) :
    (processFrame cfg st ⟨h :: rest, now, rand⟩).state = st ∧
    (processFrame cfg st ⟨h :: rest, now, rand⟩).crashed = false ∧
    hasPick (processFrame cfg st ⟨h :: rest, now, rand⟩).events = false ∧
    hasUnpick (processFrame cfg st ⟨h :: rest, now, rand⟩).events = false := by
  obtain ⟨w0, hw0⟩ : ∃ w0, h.landmarks[0]? = some w0 :=
    ⟨h.landmarks[0], List.getElem?_eq_getElem h1⟩
  have hob := okBlock_skip_of_short cfg st h.landmarks now rand h2
  simp only [processFrame, hw0, hob]
  refine ⟨trivial, trivial, ?_, ?_⟩
  · rw [hasPick_append, hasPick_append, hasPick_gestureEvents, hasPick_setRotationSingleton,
      hasPick_nil]
    rfl
  · rw [hasUnpick_append, hasUnpick_append, hasUnpick_gestureEvents,
      hasUnpick_setRotationSingleton, hasUnpick_nil]
    rfl

theorem c5_witness :
    1 ≤ hand5.landmarks.length ∧ hand5.landmarks.length ≤ 12 ∧
    ((processFrame cfgChaos stActive (⟨[hand5], 1000, 0⟩ : Frame)).state = stActive ∧
     (processFrame cfgChaos stActive (⟨[hand5], 1000, 0⟩ : Frame)).crashed = false ∧
     hasPick (processFrame cfgChaos stActive (⟨[hand5], 1000, 0⟩ : Frame)).events = false ∧
     hasUnpick (processFrame cfgChaos stActive (⟨[hand5], 1000, 0⟩ : Frame)).events = false) :=
  ⟨by decide, by decide,
   c5_short_malformed_hand_is_skipped cfgChaos stActive hand5 [] 1000 0
     (by decide) (by decide)⟩


theorem risingEdge_okFrameCount (cfg : Config) (st : GState) (cnt : ℕ) (w : Pt)
    (now rand : ℚ) :
    (risingEdge cfg st cnt w now rand).1.okFrameCount = cnt := by
  rcases risingEdge_cases cfg st cnt w now rand with ⟨-, -, h⟩ | h <;> simp [h]

theorem okCore_okFrameCount (cfg : Config) (st : GState) (gc oe : Bool) (w : Pt)
    (dg now rand : ℚ) :
    (okCore cfg st gc oe w dg now rand).1.okFrameCount =
      debouncedCount (gc && oe) st.okFrameCount := by
  simp only [okCore]
  rw [fallingEdgeMoved_okFrameCount, fallingEdgeReleased_okFrameCount, risingEdge_okFrameCount]

/-- Every event emitted by the OK-sign core is a `pick` or an `unpick`. -/
theorem okCore_mem (cfg : Config) (st : GState) (gc oe : Bool) (w : Pt) (dg now rand : ℚ)
    (e : Event) (he : e ∈ (okCore cfg st gc oe w dg now rand).2) :
    (∃ i, e = Event.pick i) ∨ e = Event.unpick := by
  simp only [okCore, List.mem_append] at he
  rcases he with (he | he) | he
  · rcases risingEdge_cases cfg st (debouncedCount (gc && oe) st.okFrameCount) w now rand with
      ⟨-, -, hre⟩ | hre <;> rw [hre] at he <;> simp at he
    exact Or.inl ⟨_, he⟩
  · rcases fallingEdgeReleased_cases gc
        ((risingEdge cfg st (debouncedCount (gc && oe) st.okFrameCount) w now rand).1) with
      h2 | h2 <;> rw [h2] at he <;> simp at he
    exact Or.inr he
  · rcases fallingEdgeMoved_cases w dg
        ((fallingEdgeReleased gc
          ((risingEdge cfg st (debouncedCount (gc && oe) st.okFrameCount) w now rand).1)).1) with
      h3 | h3 <;> rw [h3] at he <;> simp at he
    exact Or.inr he

theorem filter_isSetRotation_okBlock (cfg : Config) (st : GState) (lm : List Pt)
    (now rand : ℚ) :
    (okBlock cfg st lm now rand).2.filter isSetRotation = [] := by
  rcases okBlock_cases cfg st lm now rand with hob | ⟨gc, oe, w, hob⟩ <;> rw [hob]
  · rfl
  · apply List.filter_eq_nil_iff.mpr
    intro e he
    rcases okCore_mem cfg st gc oe w _ now rand e he with ⟨i, rfl⟩ | rfl <;>
      simp [isSetRotation]

theorem filter_isSetRotation_gestureEvents (h : Hand) :
    (gestureEvents h).filter isSetRotation = [] := by
  apply List.filter_eq_nil_iff.mpr
  intro e he
  rcases gestureEvents_shape h e he with ⟨p, rfl⟩
  simp [isSetRotation]

/-- Claim C6: on every processed frame whose hands conform to the data model
(21 landmark points each), exactly one `SetRotation` event is emitted, and its
value is determined by hand presence alone: `0` for a zero-hand frame, else
`speed = (0.5 - wristX) * 0.15` thresholded at `|speed| > 0.01`. -/
theorem c6_exactly_one_rotation (cfg : Config) (st : GState) (f : Frame)
    (hwf : ∀ h ∈ f.hands, h.landmarks.length = 21) :
    (processFrame cfg st f).events.filter isSetRotation =
      [Event.setRotation (specRotationValue f)] := by
  obtain ⟨hs, now, rand⟩ := f
  cases hs with
  | nil => rfl
  | cons hd tl =>
    have hlen : hd.landmarks.length = 21 := hwf hd (List.mem_cons_self hd tl)
    obtain ⟨w0, tl0, hcons⟩ : ∃ w0 tl0, hd.landmarks = w0 :: tl0 := by
      cases hlm : hd.landmarks with
      | nil => rw [hlm] at hlen; cases hlen
      | cons a bb => exact ⟨a, bb, rfl⟩
    have hw0 : hd.landmarks[0]? = some w0 := by simp [hcons]
    simp only [processFrame, hw0]
    rw [List.filter_append, List.filter_append, filter_isSetRotation_gestureEvents,
      filter_isSetRotation_okBlock]
    simp [isSetRotation, specRotationValue, hcons]

theorem c6_witness :
    (∀ h ∈ frameOK.hands, h.landmarks.length = 21) ∧
    (processFrame cfgChaos stIdle1 frameOK).events.filter isSetRotation =
      [Event.setRotation (specRotationValue frameOK)] :=
  ⟨by decide, c6_exactly_one_rotation cfgChaos stIdle1 frameOK (by decide)⟩

/-- The released-sign falling edge fires when asserted and its condition holds. -/
theorem fallingEdgeReleased_fires (g : Bool) (s : GState) (hb : s.okActive = true)
    (hcond : g = false ∨ s.okFrameCount = 0) :
    fallingEdgeReleased g s =
      ({ s with okActive := false, lastPickHandPos := none }, [Event.unpick]) := by
  unfold fallingEdgeReleased
  rw [if_pos ⟨hb, hcond⟩]

/-- The movement falling edge fires when asserted, anchored, and the squared
displacement exceeds the squared threshold. -/
theorem fallingEdgeMoved_fires (w : Pt) (dg : ℚ) (s : GState) (a : ℚ × ℚ)
    (hb : s.okActive = true) (ha : s.lastPickHandPos = some a)
    (hgt : MOVE_UNPICK_THRESHOLD ^ 2 * max (1 / 1000000) dg <
      (w.x - a.1) ^ 2 + (w.y - a.2) ^ 2) :
    fallingEdgeMoved w dg s =
      ({ s with okActive := false, lastPickHandPos := none }, [Event.unpick]) := by
  unfold fallingEdgeMoved
  rw [hb, ha]
  dsimp only
  rw [if_pos hgt]

/-- Core of the movement-unpick scenario: with a pick asserted and anchored at
`(0.5, 0.5)`, a frame whose wrist is `(0.52, 0.5)` and whose squared
bounding-box diagonal is `0.04` (diag `0.2`) ends with `okActive` false, the
anchor cleared, and an `Unpick` emitted — whichever way the geometric tests
went this frame. -/
theorem okCore_c7_unpick (cfg : Config) (st : GState) (gc oe : Bool) (now rand : ℚ)
    (hact : st.okActive = true)
    (hanc : st.lastPickHandPos = some (1/2, 1/2)) :
    hasUnpick (okCore cfg st gc oe ⟨13/25, 1/2⟩ (1/25) now rand).2 = true ∧
    (okCore cfg st gc oe ⟨13/25, 1/2⟩ (1/25) now rand).1.okActive = false ∧
    (okCore cfg st gc oe ⟨13/25, 1/2⟩ (1/25) now rand).1.lastPickHandPos = none := by
  simp only [okCore]
  rw [risingEdge_of_active cfg st _ _ now rand hact]
  dsimp only
  by_cases hok : gc = true ∧ ¬ debouncedCount (gc && oe) st.okFrameCount = 0
  · -- the sign is still geometrically held: the movement edge fires.
    rw [fallingEdgeReleased_silent gc
      { st with okFrameCount := debouncedCount (gc && oe) st.okFrameCount } hok.1 hok.2]
    dsimp only
    rw [fallingEdgeMoved_fires ⟨13/25, 1/2⟩ (1/25)
      { st with okFrameCount := debouncedCount (gc && oe) st.okFrameCount } (1/2, 1/2)
      hact hanc (by norm_num [MOVE_UNPICK_THRESHOLD, max_def])]
    exact ⟨rfl, rfl, rfl⟩
  · -- otherwise the released-sign edge fires first.
    have hcond : gc = false ∨
        ({ st with okFrameCount := debouncedCount (gc && oe) st.okFrameCount } :
          GState).okFrameCount = 0 := by
      rcases Bool.eq_false_or_eq_true gc with hg | hg
      · right
        by_contra hne
        exact hok ⟨hg, hne⟩
      · exact Or.inl hg
    rw [fallingEdgeReleased_fires gc
      { st with okFrameCount := debouncedCount (gc && oe) st.okFrameCount } hact hcond]
    dsimp only
    rw [fallingEdgeMoved_of_inactive ⟨13/25, 1/2⟩ (1/25)
      { lastPickTime := st.lastPickTime, okActive := false,
        okFrameCount := debouncedCount (gc && oe) st.okFrameCount,
        lastPickHandPos := none } rfl]
    exact ⟨rfl, rfl, rfl⟩

/-- Claim C7: if `okActive` with anchor `(0.5, 0.5)`, a subsequent frame whose
first hand has 21 points with wrist `(0.52, 0.5)` and bounding-box diagonal
`0.2` emits `Unpick` and clears `okActive` and the anchor — even if the
OK-sign predicate is still satisfied on that frame (the normalized wrist
displacement `0.02 / 0.2 = 0.1` exceeds the `0.08` threshold). -/
theorem c7_movement_unpick (cfg : Config) (st : GState) (h : Hand) (rest : List Hand)
    (now rand : ℚ) (pT pI : Pt) (b : Bool)
    (hact : st.okActive = true)
    (hanc : st.lastPickHandPos = some (1/2, 1/2))
    (h0 : h.landmarks[0]? = some ⟨13/25, 1/2⟩)
    (h4 : h.landmarks[4]? = some pT)
    (h8 : h.landmarks[8]? = some pI)
    (hdg : diagSq (bboxOf h.landmarks) = 1/25)
    (hloop : otherLoop h.landmarks ⟨13/25, 1/2⟩
        (otherThreshold cfg.sceneState cfg.permissiveOk)
        (max (1/1000000) (diagSq (bboxOf h.landmarks))) [12, 16, 20] = Except.ok b) :
    hasUnpick (processFrame cfg st ⟨h :: rest, now, rand⟩).events = true ∧
    (processFrame cfg st ⟨h :: rest, now, rand⟩).state.okActive = false ∧
    (processFrame cfg st ⟨h :: rest, now, rand⟩).state.lastPickHandPos = none := by
  have hcore := okCore_c7_unpick cfg st
    (if distSq pT pI <
        (normThreshold cfg.sceneState cfg.permissiveOk * bboxW (bboxOf h.landmarks)) ^ 2
      then true else false) b now rand hact hanc
  have hob : okBlock cfg st h.landmarks now rand =
      okCore cfg st
        (if distSq pT pI <
            (normThreshold cfg.sceneState cfg.permissiveOk * bboxW (bboxOf h.landmarks)) ^ 2
          then true else false) b ⟨13/25, 1/2⟩ (1/25) now rand := by
    have hob1 : okBlock cfg st h.landmarks now rand =
        okCore cfg st
          (if distSq pT pI <
              (normThreshold cfg.sceneState cfg.permissiveOk * bboxW (bboxOf h.landmarks)) ^ 2
            then true else false) b ⟨13/25, 1/2⟩ (diagSq (bboxOf h.landmarks)) now rand := by
      simp only [okBlock, h4, h8, h0, hloop]
    rw [hob1, hdg]
  simp only [processFrame, h0, hob]
  refine ⟨?_, hcore.2.1, hcore.2.2⟩
  rw [hasUnpick_append, hasUnpick_append, hasUnpick_gestureEvents,
    hasUnpick_setRotationSingleton, hcore.1]
  rfl

theorem c7_witness :
    stActive.okActive = true ∧ stActive.lastPickHandPos = some (1/2, 1/2) ∧
    hasUnpick (processFrame cfgChaos stActive (⟨[handC7], 1000, 0⟩ : Frame)).events = true ∧
    (processFrame cfgChaos stActive (⟨[handC7], 1000, 0⟩ : Frame)).state.okActive = false ∧
    (processFrame cfgChaos stActive (⟨[handC7], 1000, 0⟩ : Frame)).state.lastPickHandPos =
      none := by
  have h12 : handC7.landmarks[12]? = some ⟨13/25, 81/200⟩ := rfl
  have h16 : handC7.landmarks[16]? = some ⟨23/50, 11/25⟩ := rfl
  have h20 : handC7.landmarks[20]? = some ⟨29/50, 11/25⟩ := rfl
  refine ⟨rfl, rfl, ?_⟩
  exact c7_movement_unpick cfgChaos stActive handC7 [] 1000 0 ⟨13/25, 12/25⟩ ⟨13/25, 12/25⟩
    true rfl rfl rfl rfl rfl
    (by norm_num [diagSq, bboxOf, handC7, handC7lm, min_def, max_def])
    (by norm_num [otherLoop, otherThreshold, diagSq, bboxOf, handC7, handC7lm, distSq,
      cfgChaos, min_def, max_def, h12, h16, h20])

/-- Claim C8: in `CHAOS` phase `permissive=true` raises `normThreshold` to
exactly `0.275 = 0.22 * 1.25`, so a hand whose normalized thumb-index distance
equals `0.25` (with the other fingers extended) satisfies the OK-sign
predicate and its debounce counter increments, whereas with `permissive=false`
(threshold `0.22`) the same hand resets the counter to 0. -/
theorem c8_permissive_threshold :
    normThreshold Phase.CHAOS true = 11/40 ∧ normThreshold Phase.CHAOS false = 11/50 ∧
    ∀ (n : ℕ) (st : GState) (lm : List Pt) (pT pI w : Pt) (now rand : ℚ),
      lm[4]? = some pT → lm[8]? = some pI → lm[0]? = some w →
      distSq pT pI = bboxW (bboxOf lm) ^ 2 / 16 →
      otherLoop lm w (otherThreshold Phase.CHAOS true)
        (max (1/1000000) (diagSq (bboxOf lm))) [12, 16, 20] = Except.ok true →
      otherLoop lm w (otherThreshold Phase.CHAOS false)
        (max (1/1000000) (diagSq (bboxOf lm))) [12, 16, 20] = Except.ok true →
      (okBlock ⟨Phase.CHAOS, true, n⟩ st lm now rand).1.okFrameCount =
        min (st.okFrameCount + 1) OK_HOLD_FRAMES ∧
      (okBlock ⟨Phase.CHAOS, false, n⟩ st lm now rand).1.okFrameCount = 0 := by
  refine ⟨by norm_num [normThreshold], by norm_num [normThreshold], ?_⟩
  intro n st lm pT pI w now rand h4 h8 h0 hdist hloopP hloopS
  have hbw : (0 : ℚ) < bboxW (bboxOf lm) := lt_of_lt_of_le (by norm_num) (le_max_left _ _)
  constructor
  · have hgc : (if distSq pT pI <
          (normThreshold Phase.CHAOS true * bboxW (bboxOf lm)) ^ 2 then true else false) =
        true := by
      rw [if_pos]
      rw [hdist, show normThreshold Phase.CHAOS true = 11/40 by norm_num [normThreshold]]
      nlinarith [mul_pos hbw hbw]
    have hob : okBlock ⟨Phase.CHAOS, true, n⟩ st lm now rand =
        okCore ⟨Phase.CHAOS, true, n⟩ st true true w (diagSq (bboxOf lm)) now rand := by
      simp only [okBlock, h4, h8, h0, hloopP, hgc]
    rw [hob, okCore_okFrameCount]
    simp [debouncedCount, OK_HOLD_FRAMES]
  · have hgc2 : (if distSq pT pI <
          (normThreshold Phase.CHAOS false * bboxW (bboxOf lm)) ^ 2 then true else false) =
        false := by
      rw [if_neg]
      rw [hdist, show normThreshold Phase.CHAOS false = 11/50 by norm_num [normThreshold]]
      intro hlt
      nlinarith [mul_pos hbw hbw]
    have hob : okBlock ⟨Phase.CHAOS, false, n⟩ st lm now rand =
        okCore ⟨Phase.CHAOS, false, n⟩ st false true w (diagSq (bboxOf lm)) now rand := by
      simp only [okBlock, h4, h8, h0, hloopS, hgc2]
    rw [hob, okCore_okFrameCount]
    rfl

theorem c8_witness :
    (okBlock ⟨Phase.CHAOS, true, 5⟩ stIdle1 handOK25lm 0 0).1.okFrameCount =
      min (stIdle1.okFrameCount + 1) OK_HOLD_FRAMES ∧
    (okBlock ⟨Phase.CHAOS, false, 5⟩ stIdle1 handOK25lm 0 0).1.okFrameCount = 0 := by
  have h12 : handOK25lm[12]? = some ⟨1/2, 1/2⟩ := rfl
  have h16 : handOK25lm[16]? = some ⟨9/20, 1/2⟩ := rfl
  have h20 : handOK25lm[20]? = some ⟨11/20, 1/2⟩ := rfl
  refine c8_permissive_threshold.2.2 5 stIdle1 handOK25lm ⟨1/2, 3/5⟩ ⟨1/2, 7/10⟩ ⟨1/2, 9/10⟩
    0 0 rfl rfl rfl ?_ ?_ ?_
  · norm_num [distSq, bboxW, bboxOf, handOK25lm, min_def, max_def]
  · norm_num [otherLoop, otherThreshold, diagSq, bboxOf, handOK25lm, distSq,
      min_def, max_def, h12, h16, h20]
  · norm_num [otherLoop, otherThreshold, diagSq, bboxOf, handOK25lm, distSq,
      min_def, max_def, h12, h16, h20]

end App

